import Mathlib

/-!
Verification development for the Cat_DB manager (`Cat_DB.py`).

The definitions below are a shallow embedding of the parts of the program
that the checked properties talk about: the ER-diagram auto-layout
(`build_er_diagram`, lines 696-751), the database-name guard
(`set_current_db`, lines 29-36), the CSV export (`export_csv_current`,
lines 407-430), the error-surfacing behaviour of the user-triggered
operations, the connection discipline of the `with get_db_conn()` blocks,
the SQL runner (`run_sql`, lines 474-523) and the row-deletion key choice
(`delete_selected_row`, lines 375-405).

Python integers are embedded as `Int` (with `Int.fdiv`/`%` for Python's
floor division and modulo on the non-negative operands that occur here),
Python strings as `String`/`List Char`, and fallible operations as
`Except`/`Option`.  Python string primitives used by the program
(`str.strip`, `str.lower`, `str.split(";")`, `str.startswith`,
substring containment via `in`) are re-implemented structurally over
`List Char` so that every definition evaluates inside the kernel.
-/

/-! ## Python string primitives (structural re-implementations) -/

/-- Characters treated as whitespace by Python's `str.strip()`
(space, tab, newline, carriage return, vertical tab, form feed). -/
def isPySpace (c : Char) : Bool :=
  c == ' ' || c == '\t' || c == '\n' || c == '\r' || c == '\x0b' || c == '\x0c'

/-- Python `str.strip()` on the underlying character list. -/
def stripChars (cs : List Char) : List Char :=
  ((cs.dropWhile isPySpace).reverse.dropWhile isPySpace).reverse

/-- Python `str.strip()`. -/
def pyStrip (s : String) : String := ⟨stripChars s.data⟩

/-- Python `str.lower()` (the program only feeds it ASCII SQL text). -/
def pyLower (s : String) : String := ⟨s.data.map Char.toLower⟩

/-- Does the first list start with the second one?  (Python `str.startswith`.) -/
def listStarts : List Char → List Char → Bool
  | _, [] => true
  | [], _ :: _ => false
  | c :: cs, d :: ds => c == d && listStarts cs ds

/-- Substring containment (Python `needle in hay`). -/
def listHasSub : List Char → List Char → Bool
  | [], needle => needle.isEmpty
  | c :: cs, needle => listStarts (c :: cs) needle || listHasSub cs needle

/-- Python `hay.__contains__(needle)` on strings. -/
def strHasSub (hay needle : String) : Bool := listHasSub hay.data needle.data

/-- Python `s.split(";")` on the underlying character list:
splitting an empty string yields one empty piece, exactly as in Python. -/
def splitSemi : List Char → List (List Char)
  | [] => [[]]
  | c :: rest =>
    let r := splitSemi rest
    if c == ';' then [] :: r
    else
      match r with
      | [] => [[c]]
      | h :: t => (c :: h) :: t

/-- Python `s.split(";")`. -/
def pySplitSemi (s : String) : List String := (splitSemi s.data).map (fun cs => ⟨cs⟩)

/-! ## Data model (PRAGMA table_info rows, boxes, edges)

`ColumnInfo` mirrors one row of `PRAGMA table_info('t')` as the program
reads it: `name`, `type`, `notnull`, `pk`, `dflt_value`. -/

/-- One row of `PRAGMA table_info`, as consumed by `Cat_DB.py`. -/
structure ColumnInfo where
  name : String
  type : String
  notnull : Bool
  pk : Nat
  dflt : Option String
  deriving DecidableEq

/-- A diagram box, `boxes[t] = (x1, y1, x2, y2)` in `build_er_diagram`. -/
structure Box where
  x1 : Int
  y1 : Int
  x2 : Int
  y2 : Int
  deriving DecidableEq

/-! ## ER auto-layout (`build_er_diagram`, lines 716-739) -/

/-- `PADDING = 24` (line 718). -/
def PADDING : Int := 24

/-- `BOX_W = 260` (line 719). -/
def BOX_W : Int := 260

/-- `LINE_H = 18` (line 720). -/
def LINE_H : Int := 18

/-- `TITLE_H = 26` (line 721). -/
def TITLE_H : Int := 26

/-- `GAP_X = 40` (line 722). -/
def GAP_X : Int := 40

/-- `GAP_Y = 40` (line 723). -/
def GAP_Y : Int := 40

/-- `per_row = max(1, (W - PADDING) // (BOX_W + GAP_X))` (line 724);
Python `//` is floor division, i.e. `Int.fdiv`. -/
def per_row (w : Int) : Int := max 1 ((w - PADDING).fdiv (BOX_W + GAP_X))

/-- `nlines = max(1, len(cols_by_table[t]))` (line 732). -/
def nlinesOf (ncols : Nat) : Nat := max 1 ncols

/-- `box_h = TITLE_H + 8 + nlines * LINE_H + 12` (line 733). -/
def box_h (ncols : Nat) : Int := TITLE_H + 8 + (nlinesOf ncols : Int) * LINE_H + 12

/-- The box the loop body of lines 727-739 assigns to the table at
position `idx` of the sorted table list when the table has `ncols`
columns: `row = idx // per_row`, `col = idx % per_row`,
`x1 = PADDING + col * (BOX_W + GAP_X)`,
`y1 = PADDING + row * (box_h + GAP_Y)`, `x2 = x1 + BOX_W`,
`y2 = y1 + box_h`.  Both operands of Python's `//` and `%` are
non-negative here, so they agree with `Nat` division and modulo. -/
def boxFor (w : Int) (idx : Nat) (ncols : Nat) : Box :=
  let pr := (per_row w).toNat
  let row := idx / pr
  let col := idx % pr
  let x1 : Int := PADDING + (col : Int) * (BOX_W + GAP_X)
  let y1 : Int := PADDING + (row : Int) * (box_h ncols + GAP_Y)
  { x1 := x1, y1 := y1, x2 := x1 + BOX_W, y2 := y1 + box_h ncols }

/-- The `for idx, t in enumerate(tables)` loop (lines 727-739), building
the `boxes` association `t -> (x1, y1, x2, y2)`.  Each table is paired
with its `PRAGMA table_info` column list. -/
def buildBoxesAux (w : Int) : Nat → List (String × List ColumnInfo) → List (String × Box)
  | _, [] => []
  | idx, (t, cols) :: rest => (t, boxFor w idx cols.length) :: buildBoxesAux w (idx + 1) rest

/-- `W = self.er_canvas.winfo_width() or 1000` (line 717): a reported
width of `0` is falsy in Python, so it is replaced by `1000`. -/
def effW (raw : Nat) : Int := if raw = 0 then 1000 else (raw : Int)

/-- The box layout computed by `build_er_diagram` for a canvas of raw
width `raw` and the sorted table list `tables` (name with column list). -/
def build_er_layout (raw : Nat) (tables : List (String × List ColumnInfo)) :
    List (String × Box) :=
  buildBoxesAux (effW raw) 0 tables

/-! ## ER edges (`build_er_diagram`, lines 741-749) -/

/-- One drawn arrow: start point, end point, label text. -/
structure Edge where
  sx : Int
  sy : Int
  ex : Int
  ey : Int
  label : String
  deriving DecidableEq

/-- The body of the edge loop (lines 742-749) for one foreign-key row
`(ft, fc, tt, tc)`: skip the row unless both tables have a box, else
start at the middle of the source box's right edge and end at the middle
of the target box's left edge, labelled `f"{fc} → {tc}"`.
Python `//` on the non-negative sums here is `Int.fdiv`. -/
def edgeFor (boxes : List (String × Box)) :
    String × String × String × String → Option Edge
  | (ft, fc, tt, tc) =>
    match boxes.lookup ft, boxes.lookup tt with
    | some fb, some tb =>
      some { sx := fb.x2, sy := (fb.y1 + fb.y2).fdiv 2,
             ex := tb.x1, ey := (tb.y1 + tb.y2).fdiv 2,
             label := fc ++ " → " ++ tc }
    | some _, none => none
    | none, _ => none

/-- The `for (ft, fc, tt, tc) in fks` loop (lines 742-749): one drawn
arrow per foreign-key row whose two endpoint tables both have boxes. -/
def build_er_edges (boxes : List (String × Box))
    (fks : List (String × String × String × String)) : List Edge :=
  fks.filterMap (edgeFor boxes)

/-! ## Database-name guard (`SAFE_DB_RE` / `set_current_db`, lines 29-36) -/

/-- Membership in the character class `[a-zA-Z0-9_\-]`. -/
def allowedDbChar (c : Char) : Bool :=
  (decide ('a' ≤ c) && decide (c ≤ 'z')) ||
  (decide ('A' ≤ c) && decide (c ≤ 'Z')) ||
  (decide ('0' ≤ c) && decide (c ≤ '9')) ||
  c == '_' || c == '-'

/-- Membership in the language of the regex body `[a-zA-Z0-9_\-]+\.db`
anchored at both ends: a non-empty run of allowed characters followed by
the literal three characters `.db`.  (No allowed character equals `.`,
so greediness of `+` is irrelevant to language membership.) -/
def dbCoreMatch (cs : List Char) : Bool :=
  decide (4 ≤ cs.length) &&
  (cs.drop (cs.length - 3) == ['.', 'd', 'b']) &&
  (cs.take (cs.length - 3)).all allowedDbChar

/-- `SAFE_DB_RE.match(name)` for
`SAFE_DB_RE = re.compile(r"^[a-zA-Z0-9_\-]+\.db$")` (line 29), with
Python `re` semantics: `^` anchors at the start and `$` matches either
at the very end of the string or just before a single newline that ends
the string (Python documentation for `re`, behaviour of `$` without
`re.MULTILINE`).  Hence the accepted language is the core language plus
every core word with one extra trailing `'\n'`. -/
def SAFE_DB_RE_match (s : String) : Bool :=
  dbCoreMatch s.data || (s.data.getLast? == some '\n' && dbCoreMatch s.data.dropLast)

/-- The language the specification describes for database file names:
one or more alphanumerics/underscores/hyphens followed by the literal
extension `.db` and nothing else.  (Spec §6: "filenames restricted to an
alphanumeric/underscore/hyphen pattern ending in a fixed extension".) -/
def specSafeDbName (s : String) : Bool := dbCoreMatch s.data

/-- The process-wide current-database reference (`CURRENT_DB`, line 30). -/
structure DbState where
  current_db : String
  deriving DecidableEq

/-- `set_current_db(name)` (lines 32-36): if the name fails the regex
check a `ValueError` is raised (the global is not assigned), otherwise
`CURRENT_DB = DATA_DIR / name`.  `data_dir` stands for `DATA_DIR`. -/
def set_current_db (data_dir : String) (name : String) : Except String DbState :=
  if SAFE_DB_RE_match name then Except.ok ⟨data_dir ++ "/" ++ name⟩
  else Except.error "Ungültiger DB-Name (a-z, 0-9, _, -, .db)"

/-- The state transition seen by the caller: on success the reference is
replaced, on the raised `ValueError` it keeps its previous value. -/
def set_current_db_step (data_dir : String) (st : DbState) (name : String) : DbState :=
  match set_current_db data_dir name with
  | Except.ok st2 => st2
  | Except.error _ => st

/-! ## CSV export (`export_csv_current`, lines 407-430) -/

/-- The produced CSV file at the level the claim talks about: the field
delimiter handed to `csv.writer` (line 424), the text encoding handed to
`open` (line 423), and the logical rows written by `writerow`. -/
structure CsvFile where
  delimiter : Char
  encoding : String
  lines : List (List String)
  deriving DecidableEq

/-- `r[c]` on a `sqlite3.Row` modelled as name/value pairs: the value
stored under column name `c` (the rows produced by `SELECT * FROM t`
carry exactly the table's columns as keys). -/
def rowValue (r : List (String × String)) (c : String) : String :=
  ((r.find? (fun p => p.1 == c)).map Prod.snd).getD ""

/-- `export_csv_current` (lines 418-427) after the table was read:
`open(file, "w", newline="", encoding="utf-8")`,
`csv.writer(f, delimiter=";")`, `w.writerow(cols)`, then
`w.writerow([r[c] for c in cols])` for every fetched row. -/
def export_csv_current (cols : List String) (rows : List (List (String × String))) :
    CsvFile :=
  { delimiter := ';',
    encoding := "utf-8",
    lines := cols :: rows.map (fun r => cols.map (fun c => rowValue r c)) }

/-! ## Failure surfacing of the user-triggered operations (C7)

The places inside the six user-triggered operations where a failure can
arise are embedded one-to-one.  Five operations wrap their whole
database-touching body in `try/except`, and `delete_selected_row` has
two such places: the `with get_db_conn()` block of lines 388-389 that
runs `PRAGMA table_info` (reached when the grid has no `id` column)
lies *outside* the `try` that only starts at line 396, so an exception
there propagates uncaught out of the callback; only the delete step of
lines 396-403 is guarded.  Every guarding handler shows a modal
`messagebox.showerror` dialog except the one of `reload_items`
(lines 465-466), which silently renders an empty items grid.  No
handler re-invokes its operation, so the retry count after a failure is
0 everywhere. -/

/-- The failure sites of the six user-triggered operations:
one site per operation whose whole body is guarded, and the two sites
of `delete_selected_row` (the unguarded primary-key lookup block of
lines 388-389 and the guarded delete step of lines 396-403). -/
inductive FailSite where
  | loadTableRows
  | deleteSelectedRowPkLookup
  | deleteSelectedRowDelete
  | exportCsvCurrent
  | addItem
  | reloadItems
  | runSql
  deriving DecidableEq

/-- What the user sees when an operation's body raises. -/
inductive UiEffect where
  | modal (msg : String)
  | clearGrid
  deriving DecidableEq

/-- The handling of a failure raised at each site, applied to the
stringified exception `e`; `none` means no handler catches it (the
exception escapes the callback, no dialog):
`load_table_rows` line 364; `delete_selected_row` — the block of
lines 388-389 precedes the `try` of line 396 and is uncaught, while the
delete step is answered by line 405; `export_csv_current` line 430;
`add_item` line 456; `reload_items` lines 465-466 (renders `[] , []`
into the items grid, no message box); `run_sql` line 523. -/
def on_failure : FailSite → String → Option UiEffect
  | FailSite.loadTableRows, e => some (UiEffect.modal ("Fehler beim Laden:\n" ++ e))
  | FailSite.deleteSelectedRowPkLookup, _ => none
  | FailSite.deleteSelectedRowDelete, e => some (UiEffect.modal ("Löschfehler:\n" ++ e))
  | FailSite.exportCsvCurrent, e => some (UiEffect.modal ("Exportfehler:\n" ++ e))
  | FailSite.addItem, e => some (UiEffect.modal ("Fehler beim Hinzufügen:\n" ++ e))
  | FailSite.reloadItems, _ => some (UiEffect.clearGrid)
  | FailSite.runSql, e => some (UiEffect.modal ("SQL-Fehler:\n" ++ e))

/-- Is the effect a modal message box? -/
def isModalEffect : UiEffect → Bool
  | UiEffect.modal _ => true
  | UiEffect.clearGrid => false

/-- Was the failure caught and answered with a modal message box? -/
def surfacesModal : Option UiEffect → Bool
  | some (UiEffect.modal _) => true
  | some UiEffect.clearGrid => false
  | none => false

/-- How often an operation re-runs its body after a failure: no
`except` clause in `Cat_DB.py` calls its operation again, and an
uncaught exception aborts the callback. -/
def retries_after_failure : FailSite → Nat := fun _ => 0

/-- The failure-handling control flow of `delete_selected_row`
(lines 384-405) after a grid row is selected: `idInCols` is
`"id" in cols` (line 385), `pkLookupRes` the outcome of the unguarded
`with get_db_conn()` block of lines 388-389, `deleteRes` the outcome of
the guarded body of lines 396-403.  `Except.error e` means the
exception `e` escapes the operation uncaught (no dialog is shown);
`Except.ok (some eff)` means the user sees the dialog `eff`
(the `showwarning` of line 394 or the `showerror` of line 405);
`Except.ok none` means the deletion ran without a dialog. -/
def delete_selected_row_failures (idInCols : Bool)
    (pkLookupRes : Except String (List ColumnInfo))
    (deleteRes : Except String Unit) : Except String (Option UiEffect) :=
  let runTry : Except String (Option UiEffect) :=
    match deleteRes with
    | Except.ok _ => Except.ok none
    | Except.error e => Except.ok (some (UiEffect.modal ("Löschfehler:\n" ++ e)))
  if idInCols then runTry
  else
    match pkLookupRes with
    | Except.error e => Except.error e
    | Except.ok pkinfo =>
      match (pkinfo.find? (fun c => c.pk == 1)).map ColumnInfo.name with
      | none => Except.ok (some (UiEffect.modal "Keine PK-Spalte gefunden (z. B. 'id')."))
      | some _ => runTry

/-! ## Connection discipline (C8)

`get_db_conn` (lines 41-45) opens a fresh `sqlite3` connection; every
database access in the program is a `with get_db_conn() as conn:` block.
Per the Python documentation, the `sqlite3.Connection` context manager
commits the open transaction on normal exit and rolls it back when the
block raises — it does **not** close the connection, and `Cat_DB.py`
never calls `conn.close()`.  The traces below record, in order, the
connection events each operation performs; `ok` is `true` on the
operation's success path and `false` when the block body raises. -/

/-- Connection-level events. -/
inductive ConnEvent where
  | openConn
  | execStmt
  | commitTx
  | rollbackTx
  | closeConn
  deriving DecidableEq

/-- `with get_db_conn() as conn: <body>`: open a fresh connection, run
the body, then commit (normal exit) or roll back (exception) — and
nothing else; in particular no `closeConn`. -/
def withConn (body : List ConnEvent) (ok : Bool) : List ConnEvent :=
  ConnEvent.openConn :: body ++ [if ok then ConnEvent.commitTx else ConnEvent.rollbackTx]

/-- `load_table_rows` (lines 357-360): one `conn.execute(sql)`. -/
def load_table_rows_trace (ok : Bool) : List ConnEvent :=
  withConn [ConnEvent.execStmt] ok

/-- `reload_items` (lines 460-463): one `conn.execute(...)`. -/
def reload_items_trace (ok : Bool) : List ConnEvent :=
  withConn [ConnEvent.execStmt] ok

/-- `export_csv_current` (lines 419-422): one `conn.execute(...)`. -/
def export_csv_current_trace (ok : Bool) : List ConnEvent :=
  withConn [ConnEvent.execStmt] ok

/-- `add_item` (lines 440-450): `CREATE TABLE IF NOT EXISTS`,
the `INSERT`, then an explicit `conn.commit()`. -/
def add_item_trace (ok : Bool) : List ConnEvent :=
  withConn [ConnEvent.execStmt, ConnEvent.execStmt, ConnEvent.commitTx] ok

/-- `delete_selected_row` (lines 388-401): when `"id"` is not among the
grid columns a first scoped connection runs `PRAGMA table_info`
(lines 388-389); when a key column was found a second scoped connection
runs the `DELETE` plus an explicit `conn.commit()` (lines 399-401). -/
def delete_selected_row_trace (idInCols : Bool) (pkFound : Bool) (ok : Bool) :
    List ConnEvent :=
  (if idInCols then [] else withConn [ConnEvent.execStmt] true) ++
  (if pkFound then withConn [ConnEvent.execStmt, ConnEvent.commitTx] ok else [])

/-- `refresh_schema` (lines 321-349): inside one scoped connection the
table-list query plus two `PRAGMA` queries per table, then — still
inside the block — `load_table_rows` when tables exist (line 348, which
opens its own connection); after the block, `reload_items` (line 349). -/
def refresh_schema_trace (nTables : Nat) (okLoad okReload : Bool) : List ConnEvent :=
  withConn (ConnEvent.execStmt ::
      (List.replicate nTables [ConnEvent.execStmt, ConnEvent.execStmt]).flatten ++
      (if nTables = 0 then [] else load_table_rows_trace okLoad)) true ++
  reload_items_trace okReload

/-- `build_er_diagram` (lines 698-714): when the database file is
missing the routine returns before touching the database; otherwise one
scoped connection runs the table-list query plus two `PRAGMA` queries
per table. -/
def build_er_diagram_trace (dbExists : Bool) (nTables : Nat) : List ConnEvent :=
  if dbExists then
    withConn (ConnEvent.execStmt ::
      (List.replicate nTables [ConnEvent.execStmt, ConnEvent.execStmt]).flatten) true
  else []

/-- `run_sql` (lines 478-520): inside one scoped connection either
`executescript` plus `conn.commit()` or the statement loop plus
`conn.commit()`; on success `refresh_schema` and `build_er_diagram`
follow (lines 519-520), each with their own connections. -/
def run_sql_trace (script : Bool) (nStmts : Nat) (ok : Bool) (nTables : Nat)
    (dbExists : Bool) : List ConnEvent :=
  withConn ((if script then [ConnEvent.execStmt]
             else List.replicate nStmts ConnEvent.execStmt) ++ [ConnEvent.commitTx]) ok ++
  (if ok then
    refresh_schema_trace nTables true true ++ build_er_diagram_trace dbExists nTables
   else [])

/-! ## SQL runner (`run_sql`, lines 474-523)

The database engine is abstracted as a state machine `SqlDb σ`: running
a statement in state `s` yields a new state and a `StmtResult` holding
the cursor's column names (`[]` when `cur.description` is `None`), the
fetched rows, and the delta of `conn.total_changes` across the call. -/

/-- Result of executing one statement on a cursor. -/
structure StmtResult where
  cols : List String
  rows : List (List String)
  changes : Int

/-- An abstract SQLite engine with state type `σ`. -/
structure SqlDb (σ : Type) where
  exec : σ → String → σ × StmtResult

/-- What ends up in the result tree of the SQL tab:
`cleared` — the `executescript` path leaves `out_cols = []`, so the
result grid is only cleared (lines 485-487 and 508-509);
`grid` — the columns and rows of lines 509-518;
`info` — the synthesized `["Info"]` row of lines 504-506 carrying
`affected_total`. -/
inductive SqlDisplay where
  | cleared
  | grid (cols : List String) (rows : List (List String))
  | info (affected : Int)
  deriving DecidableEq

/-- `ddl_markers` (lines 480-481). -/
def ddl_markers : List String :=
  ["create trigger", "create view", "begin", "end",
   "create table", "drop table", "drop view", "alter table"]

/-- `low.startswith(("select", "pragma"))` on an already-lowercased,
stripped statement (line 493, applied to `stmt.lower()`). -/
def isQueryStmt (stmt : String) : Bool :=
  listStarts (pyLower stmt).data "select".data || listStarts (pyLower stmt).data "pragma".data

/-- The statement list of line 489:
`[s.strip() for s in sql_text.split(";") if s.strip()]`. -/
def run_sql_statements (sql_text : String) : List String :=
  ((pySplitSemi sql_text).map pyStrip).filter (fun t => t ≠ "")

/-- One iteration of the statement loop (lines 491-502), folding
`(connection state, out_cols, out_rows, affected_total)`. -/
def run_sql_step {σ : Type} (db : SqlDb σ)
    (acc : σ × List String × List (List String) × Int) (stmt : String) :
    σ × List String × List (List String) × Int :=
  let er := db.exec acc.1 stmt
  if isQueryStmt stmt then
    (er.1, er.2.cols, er.2.rows, acc.2.2.2)
  else
    (er.1, acc.2.1, acc.2.2.1, acc.2.2.2 + max 0 er.2.changes)

/-- `run_sql` (lines 474-506), up to the point where the result tree is
filled: `none` models the early return on empty input (line 476);
otherwise the new engine state and the displayed result. -/
def run_sql {σ : Type} (db : SqlDb σ) (s0 : σ) (input : String) :
    Option (σ × SqlDisplay) :=
  let sql_text := pyStrip input
  if sql_text = "" then none
  else
    let text_low := pyLower sql_text
    let use_script := ddl_markers.any (fun m => strHasSub text_low m)
    if use_script && (!strHasSub text_low "select" && !strHasSub text_low "pragma") then
      some ((db.exec s0 sql_text).1, SqlDisplay.cleared)
    else
      let r := (run_sql_statements sql_text).foldl (run_sql_step db)
        (s0, ([] : List String), ([] : List (List String)), (0 : Int))
      some (r.1, if r.2.1 = [] then SqlDisplay.info r.2.2.2
                 else SqlDisplay.grid r.2.1 r.2.2.1)

/-- Running a statement list in order, keeping each statement paired
with its result (used to state what the fold of `run_sql` computes). -/
def execAll {σ : Type} (db : SqlDb σ) : σ → List String → σ × List (String × StmtResult)
  | s, [] => (s, [])
  | s, stmt :: rest =>
    let er := db.exec s stmt
    let tail := execAll db er.1 rest
    (tail.1, (stmt, er.2) :: tail.2)

/-- The result of the last `select`/`pragma` statement of a run, if any. -/
def lastQueryResult : List (String × StmtResult) → Option StmtResult
  | [] => none
  | (stmt, r) :: rest =>
    match lastQueryResult rest with
    | some r2 => some r2
    | none => if isQueryStmt stmt then some r else none

/-- `affected_total`: the sum over non-query statements of
`max(0, after - before)` (lines 499-502). -/
def sumChanges : List (String × StmtResult) → Int
  | [] => 0
  | (stmt, r) :: rest =>
    (if isQueryStmt stmt then 0 else max 0 r.changes) + sumChanges rest

/-- Modelled from the amended description of the non-script display:
the grid of the last `select`/`pragma` statement when that statement
produced a non-empty column list, and otherwise the Info row carrying
the change total. -/
def displaySpec (results : List (String × StmtResult)) : SqlDisplay :=
  match lastQueryResult results with
  | some r => if r.cols = [] then SqlDisplay.info (sumChanges results)
              else SqlDisplay.grid r.cols r.rows
  | none => SqlDisplay.info (sumChanges results)

/-! ## Row deletion key choice (`delete_selected_row`, lines 375-405) -/

/-- Outcome of `delete_selected_row` after a row is selected:
`warnNoPk` — the warning of line 394, nothing deleted;
`errorCaught` — a raised `ValueError`/`IndexError` caught by the
handler of line 405, nothing deleted;
`deleted k v remaining` — the `DELETE FROM t WHERE k = ?` of line 400
ran with key column `k` and key value `v`, leaving `remaining`. -/
inductive DeleteOutcome where
  | warnNoPk
  | errorCaught
  | deleted (pkCol : String) (pkVal : String)
      (remaining : List (List (String × String)))
  deriving DecidableEq

/-- Lines 384-392: prefer a column literally named `"id"` among the
grid columns (without consulting the schema), else the first
`PRAGMA table_info` row whose `pk` flag equals 1. -/
def pick_pk_col (cols : List String) (pkinfo : List ColumnInfo) : Option String :=
  if cols.contains "id" then some "id"
  else (pkinfo.find? (fun c => c.pk == 1)).map ColumnInfo.name

/-- Python `cols.index(x)` (line 397), as an `Option` instead of the
raised `ValueError`: position of the first occurrence of `x`. -/
def list_index : List String → String → Option Nat
  | [], _ => none
  | a :: l, x => if a == x then some 0 else (list_index l x).map (· + 1)

/-- `delete_selected_row` (lines 375-405) for the browsed table:
`cols`/`vals` are the grid's columns and the selected row's values,
`pkinfo` is `PRAGMA table_info` of the table, `rows` are the table's
records.  `cols.index(pk_col)` and `vals[pk_idx]` raise when the key
column is absent or the row is short (caught by the handler);
the `DELETE ... WHERE pk_col = ?` removes exactly the records whose
key column equals the selected value. -/
def delete_selected_row (cols : List String) (vals : List String)
    (pkinfo : List ColumnInfo) (rows : List (List (String × String))) :
    DeleteOutcome :=
  match pick_pk_col cols pkinfo with
  | none => DeleteOutcome.warnNoPk
  | some k =>
    match list_index cols k with
    | none => DeleteOutcome.errorCaught
    | some i =>
      match vals[i]? with
      | none => DeleteOutcome.errorCaught
      | some v =>
        DeleteOutcome.deleted k v
          (rows.filter (fun r => !(rowValue r k == v)))

/-! ## Concrete instances used by counterexamples and witnesses -/

/-- A one-column `PRAGMA table_info` row used in concrete schemas. -/
def colA : ColumnInfo :=
  { name := "c1", type := "TEXT", notnull := false, pk := 0, dflt := none }

/-- A second column row used to change a table's column count. -/
def colB : ColumnInfo :=
  { name := "c2", type := "TEXT", notnull := false, pk := 0, dflt := none }

/-- Four tables, one column each (already sorted by name). -/
def tablesOneCol : List (String × List ColumnInfo) :=
  [("a", [colA]), ("b", [colA]), ("c", [colA]), ("d", [colA])]

/-- The same four tables, but table `d` now has two columns. -/
def tablesTwoCol : List (String × List ColumnInfo) :=
  [("a", [colA]), ("b", [colA]), ("c", [colA]), ("d", [colA, colB])]

/-- Concrete two-box layout for the C3 witness. -/
def boxesW : List (String × Box) :=
  [("A", { x1 := 0, y1 := 0, x2 := 10, y2 := 10 }),
   ("B", { x1 := 20, y1 := 0, x2 := 30, y2 := 10 })]

/-- An engine state in which every statement returns no result
description (`cur.description` is `None`, so the column list is empty),
no rows, and no change-count delta — exactly how `sqlite3` answers a
value-setting `PRAGMA` such as `PRAGMA foreign_keys = ON`. -/
def pragmaSilentDb : SqlDb Unit :=
  { exec := fun s _ => (s, { cols := [], rows := [], changes := 0 }) }

/-! ## Helper lemmas -/

/-- The enumerate loop pairs the table at list position `i` with the box
computed from the running index `k + i` and that table's own column
count. -/
lemma buildBoxesAux_getElem? (w : Int) :
    ∀ (ts : List (String × List ColumnInfo)) (k i : Nat),
      (buildBoxesAux w k ts)[i]? =
        (ts[i]?).map (fun tc => (tc.1, boxFor w (k + i) tc.2.length)) := by
  intro ts
  induction ts with
  | nil => intro k i; simp [buildBoxesAux]
  | cons hd rest ih =>
    intro k i
    obtain ⟨t, cols⟩ := hd
    cases i with
    | zero => simp [buildBoxesAux]
    | succ j =>
      simp only [buildBoxesAux, List.getElem?_cons_succ]
      rw [ih (k + 1) j]
      have : k + 1 + j = k + (j + 1) := by omega
      rw [this]

/-- The enumerate loop produces one box per table. -/
lemma buildBoxesAux_length (w : Int) :
    ∀ (ts : List (String × List ColumnInfo)) (k : Nat),
      (buildBoxesAux w k ts).length = ts.length := by
  intro ts
  induction ts with
  | nil => intro k; rfl
  | cons hd rest ih => intro k; obtain ⟨t, cols⟩ := hd; simp [buildBoxesAux, ih]

/-- Every entry of the box list is a `boxFor` value. -/
lemma mem_buildBoxesAux {w : Int} :
    ∀ {ts : List (String × List ColumnInfo)} {k : Nat}
      {p : String × Box}, p ∈ buildBoxesAux w k ts → ∃ i n, p.2 = boxFor w i n := by
  intro ts
  induction ts with
  | nil => intro k p h; simp [buildBoxesAux] at h
  | cons hd rest ih =>
    intro k p h
    obtain ⟨t, cols⟩ := hd
    rcases List.mem_cons.mp h with h1 | h2
    · exact ⟨k, cols.length, by rw [h1]⟩
    · exact ih h2

/-- All four coordinates of every computed box are non-negative. -/
lemma boxFor_nonneg (w : Int) (i n : Nat) :
    0 ≤ (boxFor w i n).x1 ∧ 0 ≤ (boxFor w i n).y1 ∧
    0 ≤ (boxFor w i n).x2 ∧ 0 ≤ (boxFor w i n).y2 := by
  simp only [boxFor, box_h, nlinesOf, PADDING, BOX_W, GAP_X, GAP_Y, TITLE_H, LINE_H]
  refine ⟨by positivity, by positivity, by positivity, by positivity⟩

/-! ## C1 — box position as a function of index, table count, width -/

/-- C1 counterexample: with canvas width 1000 and four tables
(`per_row = 3`, so table `d` at index 3 sits in the second grid row),
giving table `d` a second column moves its top-left corner from
`(24, 128)` to `(24, 146)`: the box position of a table at a fixed
index, fixed table count and fixed canvas width still depends on that
table's column count, so it is not a pure function of the three inputs
named by the claim. -/
theorem er_box_position_depends_on_column_count :
    (build_er_layout 1000 tablesOneCol).lookup "d" =
      some { x1 := 24, y1 := 128, x2 := 284, y2 := 192 } ∧
    (build_er_layout 1000 tablesTwoCol).lookup "d" =
      some { x1 := 24, y1 := 146, x2 := 284, y2 := 228 } ∧
    tablesOneCol.length = tablesTwoCol.length ∧
    (build_er_layout 1000 tablesOneCol).lookup "d" ≠
      (build_er_layout 1000 tablesTwoCol).lookup "d" := by decide

/-- C1 amended: the box of the table at index `i` is a pure function of
the index, the canvas width and that table's own column count (and of
nothing else about the schema — in particular not of the table count);
the `x1` coordinate does not depend on the column count at all. -/
theorem er_box_position_amended :
    ∀ (raw : Nat) (tables : List (String × List ColumnInfo)) (i : Nat),
      (build_er_layout raw tables)[i]? =
        (tables[i]?).map (fun tc => (tc.1, boxFor (effW raw) i tc.2.length)) ∧
      ∀ (w : Int) (n1 n2 : Nat), (boxFor w i n1).x1 = (boxFor w i n2).x1 := by
  intro raw tables i
  constructor
  · rw [build_er_layout, buildBoxesAux_getElem?]
    simp
  · intro w n1 n2
    rfl

/-! ## C2 — tiles-per-row formula and grid-cell assignment -/

/-- C2: `per_row` is `max(1, floor((W - 24) / (260 + 40)))`, and the
table at index `i` of the sorted list gets the box of grid cell
`(i / per_row, i % per_row)`: its `x1` uses column `i % per_row`, its
`y1` uses row `i / per_row`, as placed by the actual layout. -/
theorem er_per_row_and_grid_cell :
    ∀ (w : Int) (raw i n : Nat) (tables : List (String × List ColumnInfo)),
      per_row w = max 1 ((w - 24).fdiv (260 + 40)) ∧
      (boxFor w i n).x1 =
        PADDING + ((i % (per_row w).toNat : Nat) : Int) * (BOX_W + GAP_X) ∧
      (boxFor w i n).y1 =
        PADDING + ((i / (per_row w).toNat : Nat) : Int) * (box_h n + GAP_Y) ∧
      (build_er_layout raw tables)[i]? =
        (tables[i]?).map (fun tc => (tc.1, boxFor (effW raw) i tc.2.length)) := by
  intro w raw i n tables
  refine ⟨by norm_num [per_row, PADDING, BOX_W, GAP_X], rfl, rfl, ?_⟩
  rw [build_er_layout, buildBoxesAux_getElem?]
  simp

/-! ## C3 — one edge per foreign-key row -/

/-- A foreign-key row produces an edge exactly when both endpoint
tables have boxes. -/
lemma edgeFor_isSome (boxes : List (String × Box))
    (fk : String × String × String × String) :
    (edgeFor boxes fk).isSome =
      ((boxes.lookup fk.1).isSome && (boxes.lookup fk.2.2.1).isSome) := by
  obtain ⟨ft, fc, tt, tc⟩ := fk
  cases hf : boxes.lookup ft <;> cases ht : boxes.lookup tt <;> simp [edgeFor, hf, ht]

/-- The number of drawn edges is the number of foreign-key rows whose
edge function fires. -/
lemma build_er_edges_length (boxes : List (String × Box))
    (fks : List (String × String × String × String)) :
    (build_er_edges boxes fks).length =
      (fks.filter (fun fk => (edgeFor boxes fk).isSome)).length := by
  induction fks with
  | nil => rfl
  | cons fk fks ih =>
    cases h : edgeFor boxes fk <;>
      simp [build_er_edges, List.filterMap_cons, List.filter_cons, h] <;>
      simpa [build_er_edges] using ih

/-- C3: for a foreign-key row whose two endpoint tables both have boxes
the renderer draws exactly one extra edge, starting at the vertical
midpoint of the source box's right edge, ending at the vertical midpoint
of the target box's left edge, labelled with the source column, an
arrow, and the target column; a row with a missing endpoint draws
nothing; in total, one edge per fully-resolved foreign-key row. -/
theorem er_edge_per_foreign_key :
    ∀ (boxes : List (String × Box))
      (fks : List (String × String × String × String)) (ft fc tt tc : String),
      (∀ fb tb, boxes.lookup ft = some fb → boxes.lookup tt = some tb →
        build_er_edges boxes ((ft, fc, tt, tc) :: fks) =
          { sx := fb.x2, sy := (fb.y1 + fb.y2).fdiv 2,
            ex := tb.x1, ey := (tb.y1 + tb.y2).fdiv 2,
            label := fc ++ " → " ++ tc } :: build_er_edges boxes fks) ∧
      (boxes.lookup ft = none ∨ boxes.lookup tt = none →
        build_er_edges boxes ((ft, fc, tt, tc) :: fks) = build_er_edges boxes fks) ∧
      (build_er_edges boxes fks).length =
        (fks.filter (fun fk => (boxes.lookup fk.1).isSome &&
          (boxes.lookup fk.2.2.1).isSome)).length := by
  intro boxes fks ft fc tt tc
  refine ⟨?_, ?_, ?_⟩
  · intro fb tb h1 h2
    simp [build_er_edges, List.filterMap_cons, edgeFor, h1, h2]
  · intro h
    rcases h with h | h
    · simp [build_er_edges, List.filterMap_cons, edgeFor, h]
    · cases hf : boxes.lookup ft <;>
        simp [build_er_edges, List.filterMap_cons, edgeFor, hf, h]
  · rw [build_er_edges_length]
    congr 1
    exact List.filter_congr (fun fk _ => edgeFor_isSome boxes fk)

/-- C3 witness: one foreign key from `A.x` to `B.y` yields exactly the
one edge from the midpoint of `A`'s right edge to the midpoint of `B`'s
left edge with label `x → y`. -/
theorem er_edge_per_foreign_key_witness :
    build_er_edges boxesW [("A", "x", "B", "y")] =
      [{ sx := 10, sy := 5, ex := 20, ey := 5, label := "x → y" }] := by
  have h := (er_edge_per_foreign_key boxesW [] "A" "x" "B" "y").1
    { x1 := 0, y1 := 0, x2 := 10, y2 := 10 }
    { x1 := 20, y1 := 0, x2 := 30, y2 := 10 } (by decide) (by decide)
  exact h.trans (by decide)

/-! ## C4 — box count, non-negative coordinates, per_row ≥ 1 -/

/-- C4: for every raw canvas width (including 0, which the code
replaces by 1000) and every table list the layout produces exactly one
box per table, `per_row` is at least 1, and every box coordinate is
non-negative. -/
theorem er_layout_count_and_nonneg :
    ∀ (raw : Nat) (tables : List (String × List ColumnInfo)),
      (build_er_layout raw tables).length = tables.length ∧
      1 ≤ per_row (effW raw) ∧
      ∀ p ∈ build_er_layout raw tables,
        0 ≤ p.2.x1 ∧ 0 ≤ p.2.y1 ∧ 0 ≤ p.2.x2 ∧ 0 ≤ p.2.y2 := by
  intro raw tables
  refine ⟨buildBoxesAux_length _ _ _, le_max_left 1 _, ?_⟩
  intro p hp
  obtain ⟨i, n, hpn⟩ := mem_buildBoxesAux hp
  rw [hpn]
  exact boxFor_nonneg _ i n

/-- C4 witness: a width-0 canvas with one zero-column table yields one
box with a non-negative top edge. -/
theorem er_layout_count_and_nonneg_witness :
    (build_er_layout 0 [("t", [])]).length = 1 ∧ 0 ≤ (boxFor (effW 0) 0 0).y1 := by
  have h := er_layout_count_and_nonneg 0 [("t", [])]
  refine ⟨h.1, ?_⟩
  have hm : ("t", boxFor (effW 0) 0 0) ∈ build_er_layout 0 [("t", [])] := by decide
  exact (h.2.2 ("t", boxFor (effW 0) 0 0) hm).2.1

/-! ## C5 — database-name validation -/

/-- C5: the guard accepts exactly the claimed names — except that, by
Python's `re` semantics for `$`, it also accepts a claimed name followed
by one trailing newline.  Evaluated here: `"kitty.db"` passes,
`"kitty.sqlite"` and `"bad name.db"` fail (and the failing call leaves
the current-database reference unchanged), but the failing input
`"a.db\n"` is accepted by the code although it does not end in the
literal extension `.db`, and the reference is then set to a path with an
embedded newline. -/
theorem safe_db_regex_accepts_trailing_newline :
    SAFE_DB_RE_match "kitty.db" = true ∧
    SAFE_DB_RE_match "kitty.sqlite" = false ∧
    SAFE_DB_RE_match "bad name.db" = false ∧
    SAFE_DB_RE_match "a.db\n" = true ∧
    specSafeDbName "a.db\n" = false ∧
    (set_current_db "data" "a.db\n").toOption = some ⟨"data/a.db\n"⟩ ∧
    set_current_db_step "data" ⟨"data/database.db"⟩ "bad name.db" =
      ⟨"data/database.db"⟩ := by decide

/-! ## C6 — CSV export format -/

/-- Reading a record back by its own keys, in key order, returns its
values in order (requires the keys to be distinct, which table columns
are). -/
lemma rowValue_self_keys :
    ∀ (r : List (String × String)), (r.map Prod.fst).Nodup →
      (r.map Prod.fst).map (fun c => rowValue r c) = r.map Prod.snd := by
  intro r
  induction r with
  | nil => intro _; rfl
  | cons hd tl ih =>
    intro hnd
    obtain ⟨a, v⟩ := hd
    simp only [List.map_cons] at hnd ⊢
    rw [List.nodup_cons] at hnd
    obtain ⟨ha, hnd'⟩ := hnd
    congr 1
    · simp [rowValue, List.find?]
    · have hstep : (tl.map Prod.fst).map (fun c => rowValue ((a, v) :: tl) c) =
          (tl.map Prod.fst).map (fun c => rowValue tl c) := by
        apply List.map_congr_left
        intro c hc
        have hca : ¬(a = c) := fun h => ha (h ▸ hc)
        have hbe : (a == c) = false := beq_eq_false_iff_ne.mpr hca
        simp [rowValue, List.find?, hbe]
      rw [hstep, ih hnd']

/-- C6: the exported file uses the semicolon delimiter and UTF-8
encoding, its first logical row is exactly the column-name list, and
each record contributes exactly one following row holding its values in
column order. -/
theorem export_csv_format :
    ∀ (cols : List String) (rows : List (List (String × String))),
      (∀ r ∈ rows, r.map Prod.fst = cols) → cols.Nodup →
      (export_csv_current cols rows).delimiter = ';' ∧
      (export_csv_current cols rows).encoding = "utf-8" ∧
      (export_csv_current cols rows).lines =
        cols :: rows.map (fun r => r.map Prod.snd) := by
  intro cols rows hk hnd
  refine ⟨rfl, rfl, ?_⟩
  simp only [export_csv_current]
  congr 1
  apply List.map_congr_left
  intro r hr
  have h1 : r.map Prod.fst = cols := hk r hr
  subst h1
  exact rowValue_self_keys r hnd

/-- C6 witness: a two-column table with one record exports as a header
row followed by the record's values. -/
theorem export_csv_format_witness :
    (export_csv_current ["id", "name"] [[("id", "1"), ("name", "kitty")]]).lines =
      [["id", "name"], ["1", "kitty"]] ∧
    (export_csv_current ["id", "name"] [[("id", "1"), ("name", "kitty")]]).delimiter = ';' := by
  have h := export_csv_format ["id", "name"] [[("id", "1"), ("name", "kitty")]]
    (by decide) (by decide)
  exact ⟨h.2.2.trans (by decide), h.1⟩

/-! ## C7 — failure surfacing -/

/-- C7 counterexample: two failures contradict the claim at concrete
inputs.  An inaccessible database file during the primary-key lookup of
row deletion (the unguarded connection block that runs when the grid
has no `id` column) is not caught at the point of the user action at
all — it escapes the operation and no dialog is shown; and a failure in
item reloading (e.g. the `items` table does not exist in the opened
database) is caught but answered by silently rendering an empty items
grid instead of a modal message. -/
theorem delete_pklookup_failure_uncaught :
    delete_selected_row_failures false
      (Except.error "unable to open database file") (Except.ok ()) =
      Except.error "unable to open database file" ∧
    on_failure FailSite.deleteSelectedRowPkLookup "unable to open database file" =
      none ∧
    on_failure FailSite.reloadItems "no such table: items" =
      some UiEffect.clearGrid ∧
    isModalEffect UiEffect.clearGrid = false :=
  ⟨rfl, rfl, rfl, rfl⟩

/-- C7 amended: no operation retries after a failure, and failures in
row loading, CSV export, item insertion, SQL execution and in the
guarded delete step of row deletion are caught at the point of the user
action and surfaced as a modal message; but failures in item reloading
are caught and silently clear the items grid without a message, and
failures in row deletion's primary-key lookup connection block (run
when the grid has no `id` column, and placed before the `try`) are not
caught at all and propagate uncaught without a dialog. -/
theorem failure_surfacing_sites :
    ∀ (site : FailSite) (e : String) (pkinfo : List ColumnInfo)
      (dres : Except String Unit),
      retries_after_failure site = 0 ∧
      (site ≠ FailSite.reloadItems → site ≠ FailSite.deleteSelectedRowPkLookup →
        surfacesModal (on_failure site e) = true) ∧
      on_failure FailSite.reloadItems e = some UiEffect.clearGrid ∧
      on_failure FailSite.deleteSelectedRowPkLookup e = none ∧
      delete_selected_row_failures false (Except.error e) dres = Except.error e ∧
      delete_selected_row_failures true (Except.ok pkinfo) (Except.error e) =
        Except.ok (some (UiEffect.modal ("Löschfehler:\n" ++ e))) := by
  intro site e pkinfo dres
  refine ⟨rfl, ?_, rfl, rfl, rfl, rfl⟩
  intro h1 h2
  cases site <;> simp_all [on_failure, surfacesModal]

/-- C7 witness: a failing SQL execution produces a modal message. -/
theorem failure_surfacing_sites_witness :
    surfacesModal (on_failure FailSite.runSql "syntax error") = true :=
  (failure_surfacing_sites FailSite.runSql "syntax error" [] (Except.ok ())).2.1
    (by decide) (by decide)

/-! ## C8 — per-operation connection discipline -/

/-- A `with get_db_conn()` block never produces a close event. -/
lemma closeConn_not_mem_withConn (body : List ConnEvent) (ok : Bool)
    (h : ConnEvent.closeConn ∉ body) : ConnEvent.closeConn ∉ withConn body ok := by
  cases ok <;> simp [withConn, h]

/-- The per-table PRAGMA queries contain no close event. -/
lemma closeConn_not_mem_pairs (n : Nat) :
    ConnEvent.closeConn ∉
      (List.replicate n [ConnEvent.execStmt, ConnEvent.execStmt]).flatten := by
  induction n with
  | zero => simp
  | succ k ih => simp [List.replicate_succ, ih]

/-- `load_table_rows` produces no close event. -/
lemma closeConn_not_mem_load (ok : Bool) :
    ConnEvent.closeConn ∉ load_table_rows_trace ok :=
  closeConn_not_mem_withConn _ _ (by decide)

/-- `reload_items` produces no close event. -/
lemma closeConn_not_mem_reload (ok : Bool) :
    ConnEvent.closeConn ∉ reload_items_trace ok :=
  closeConn_not_mem_withConn _ _ (by decide)

/-- The schema-reading body (table list plus two PRAGMAs per table,
optionally followed by the nested `load_table_rows`) has no close event. -/
lemma closeConn_not_mem_schema_body (n : Nat) (okL : Bool) :
    ConnEvent.closeConn ∉
      ConnEvent.execStmt ::
        (List.replicate n [ConnEvent.execStmt, ConnEvent.execStmt]).flatten ++
        (if n = 0 then [] else load_table_rows_trace okL) := by
  intro hb
  rcases List.mem_cons.mp hb with h1 | h1
  · exact ConnEvent.noConfusion h1
  rcases List.mem_append.mp h1 with h2 | h2
  · exact closeConn_not_mem_pairs n h2
  · by_cases hn : n = 0
    · simp [hn] at h2
    · simp only [if_neg hn] at h2
      exact closeConn_not_mem_load okL h2

/-- `refresh_schema` produces no close event. -/
lemma closeConn_not_mem_refresh (n : Nat) (okL okR : Bool) :
    ConnEvent.closeConn ∉ refresh_schema_trace n okL okR := by
  intro h
  rcases List.mem_append.mp h with h | h
  · exact closeConn_not_mem_withConn _ _ (closeConn_not_mem_schema_body n okL) h
  · exact closeConn_not_mem_reload okR h

/-- `build_er_diagram` produces no close event. -/
lemma closeConn_not_mem_er (dbEx : Bool) (n : Nat) :
    ConnEvent.closeConn ∉ build_er_diagram_trace dbEx n := by
  cases dbEx
  · simp [build_er_diagram_trace]
  · simp only [build_er_diagram_trace, if_pos rfl]
    apply closeConn_not_mem_withConn
    intro hb
    rcases List.mem_cons.mp hb with h1 | h1
    · exact ConnEvent.noConfusion h1
    · exact closeConn_not_mem_pairs n h1

/-- C8 counterexample: on both the success and the failure path of
`load_table_rows` the connection trace ends with the transaction being
committed or rolled back — no close event ever occurs, because the
`sqlite3` context manager only ends the transaction and `Cat_DB.py`
never calls `conn.close()`.  The claim's "closes it before the
operation returns" is false. -/
theorem db_connection_never_closed :
    ConnEvent.closeConn ∉ load_table_rows_trace true ∧
    ConnEvent.closeConn ∉ load_table_rows_trace false ∧
    (load_table_rows_trace true).getLast? = some ConnEvent.commitTx ∧
    (load_table_rows_trace false).getLast? = some ConnEvent.rollbackTx := by decide

/-- C8 amended: every database access of every operation runs in a
`with get_db_conn()` block that opens a fresh connection at its start
(every non-empty operation trace begins with an open event) and ends
the transaction — commit on success, rollback on failure — before the
operation returns; no connection is ever closed, and no connection is
shared across operations (each block begins with its own open). -/
theorem db_connection_scoped_amended :
    ∀ (ok okL okR idIn pkF script dbEx : Bool) (n m : Nat) (body : List ConnEvent),
      (ConnEvent.closeConn ∉ body → ConnEvent.closeConn ∉ withConn body ok) ∧
      (withConn body ok).head? = some ConnEvent.openConn ∧
      (withConn body ok).getLast? =
        some (if ok then ConnEvent.commitTx else ConnEvent.rollbackTx) ∧
      ConnEvent.closeConn ∉ load_table_rows_trace ok ∧
      ConnEvent.closeConn ∉ reload_items_trace ok ∧
      ConnEvent.closeConn ∉ export_csv_current_trace ok ∧
      ConnEvent.closeConn ∉ add_item_trace ok ∧
      ConnEvent.closeConn ∉ delete_selected_row_trace idIn pkF ok ∧
      ConnEvent.closeConn ∉ refresh_schema_trace n okL okR ∧
      ConnEvent.closeConn ∉ build_er_diagram_trace dbEx n ∧
      ConnEvent.closeConn ∉ run_sql_trace script m ok n dbEx ∧
      (load_table_rows_trace ok).head? = some ConnEvent.openConn ∧
      (reload_items_trace ok).head? = some ConnEvent.openConn ∧
      (export_csv_current_trace ok).head? = some ConnEvent.openConn ∧
      (add_item_trace ok).head? = some ConnEvent.openConn ∧
      (delete_selected_row_trace idIn pkF ok ≠ [] →
        (delete_selected_row_trace idIn pkF ok).head? = some ConnEvent.openConn) ∧
      (refresh_schema_trace n okL okR).head? = some ConnEvent.openConn ∧
      (dbEx = true →
        (build_er_diagram_trace dbEx n).head? = some ConnEvent.openConn) ∧
      (run_sql_trace script m ok n dbEx).head? = some ConnEvent.openConn := by
  intro ok okL okR idIn pkF script dbEx n m body
  refine ⟨closeConn_not_mem_withConn body ok, rfl, ?_, closeConn_not_mem_load ok,
    closeConn_not_mem_reload ok, closeConn_not_mem_withConn _ _ (by decide),
    closeConn_not_mem_withConn _ _ (by decide), ?_,
    closeConn_not_mem_refresh n okL okR, closeConn_not_mem_er dbEx n, ?_,
    rfl, rfl, rfl, rfl, ?_, rfl, ?_, ?_⟩
  · exact List.getLast?_concat (ConnEvent.openConn :: body)
  · intro h
    rcases List.mem_append.mp h with h | h
    · by_cases hi : idIn = true
      · simp [hi] at h
      · replace hi : idIn = false := by cases idIn <;> simp_all
        rw [hi] at h
        simp only [if_neg Bool.false_ne_true] at h
        exact closeConn_not_mem_withConn _ _ (by decide) h
    · by_cases hp : pkF = true
      · rw [hp] at h
        simp only [if_pos rfl] at h
        exact closeConn_not_mem_withConn _ _ (by decide) h
      · replace hp : pkF = false := by cases pkF <;> simp_all
        simp [hp] at h
  · intro h
    rcases List.mem_append.mp h with h | h
    · apply closeConn_not_mem_withConn _ _ ?_ h
      intro hb
      rcases List.mem_append.mp hb with h1 | h1
      · cases script
        · simp [List.mem_replicate] at h1
        · simp at h1
      · simp at h1
    · cases ok
      · simp at h
      · simp only [if_pos rfl] at h
        rcases List.mem_append.mp h with h2 | h2
        · exact closeConn_not_mem_refresh n true true h2
        · exact closeConn_not_mem_er dbEx n h2
  · intro hne
    cases idIn <;> cases pkF <;> first | rfl | exact absurd rfl hne
  · intro hd
    rw [hd]
    rfl
  · cases script <;> rfl

/-! ## C9 — run_sql dispatch and displayed result -/

/-- What the statement loop of lines 491-502 computes, expressed through
`execAll`, `lastQueryResult` and `sumChanges`: the final connection
state, the columns/rows of the last `select`/`pragma` statement (the
initial `out_cols`/`out_rows` when there is none), and the accumulated
change total. -/
lemma run_sql_foldl_spec {σ : Type} (db : SqlDb σ) :
    ∀ (stmts : List String) (s : σ) (oc : List String)
      (orws : List (List String)) (aff : Int),
      stmts.foldl (run_sql_step db) (s, oc, orws, aff) =
        ((execAll db s stmts).1,
         (match lastQueryResult (execAll db s stmts).2 with
          | some r => r.cols
          | none => oc),
         (match lastQueryResult (execAll db s stmts).2 with
          | some r => r.rows
          | none => orws),
         aff + sumChanges (execAll db s stmts).2) := by
  intro stmts
  induction stmts with
  | nil => intro s oc orws aff; simp [execAll, lastQueryResult, sumChanges]
  | cons stmt rest ih =>
    intro s oc orws aff
    by_cases hq : isQueryStmt stmt = true
    · simp only [List.foldl_cons, run_sql_step, hq, if_pos rfl, execAll]
      rw [ih]
      cases hl : lastQueryResult (execAll db (db.exec s stmt).1 rest).2 <;>
        simp [lastQueryResult, sumChanges, hl, hq]
    · replace hq : isQueryStmt stmt = false := by
        cases h : isQueryStmt stmt <;> simp_all
      simp only [List.foldl_cons, run_sql_step, hq, Bool.false_eq_true, if_neg, execAll]
      rw [ih]
      cases hl : lastQueryResult (execAll db (db.exec s stmt).1 rest).2 <;>
        simp [lastQueryResult, sumChanges, hl, hq] <;> ring

/-- C9 counterexample: the input `PRAGMA foreign_keys = ON` consists of
one statement beginning with `pragma`, so the claim requires the
displayed result to be that statement's (empty) row set; the code
instead leaves `out_cols` empty and therefore displays the synthesized
Info row `OK. Geänderte Zeilen: 0`. -/
theorem run_sql_pragma_displays_info :
    run_sql pragmaSilentDb () "PRAGMA foreign_keys = ON" =
      some ((), SqlDisplay.info 0) ∧
    SqlDisplay.info 0 ≠ SqlDisplay.grid [] [] := by decide

/-- C9 amended: `run_sql` takes the `executescript` path exactly when
the lowercased stripped input contains a DDL marker and contains neither
`select` nor `pragma`; otherwise it splits the input on semicolons into
stripped non-empty statements, executes them in order, and displays the
column/row set of the last statement beginning with `select`/`pragma`
when that statement produced a non-empty column list — and otherwise
(no such statement, or its cursor had no result description) a single
Info row carrying the sum over non-query statements of
`max(0, change-count delta)`. -/
theorem run_sql_dispatch_amended :
    ∀ (σ : Type) (db : SqlDb σ) (s0 : σ) (input : String),
      pyStrip input ≠ "" →
      ((ddl_markers.any (fun m => strHasSub (pyLower (pyStrip input)) m) &&
          (!strHasSub (pyLower (pyStrip input)) "select" &&
           !strHasSub (pyLower (pyStrip input)) "pragma")) = true →
        run_sql db s0 input =
          some ((db.exec s0 (pyStrip input)).1, SqlDisplay.cleared)) ∧
      ((ddl_markers.any (fun m => strHasSub (pyLower (pyStrip input)) m) &&
          (!strHasSub (pyLower (pyStrip input)) "select" &&
           !strHasSub (pyLower (pyStrip input)) "pragma")) = false →
        run_sql db s0 input =
          some ((execAll db s0 (run_sql_statements (pyStrip input))).1,
                displaySpec (execAll db s0 (run_sql_statements (pyStrip input))).2)) ∧
      ((ddl_markers.any (fun m => strHasSub (pyLower (pyStrip input)) m) &&
          (!strHasSub (pyLower (pyStrip input)) "select" &&
           !strHasSub (pyLower (pyStrip input)) "pragma")) = false →
        ∀ s1, run_sql db s0 input ≠ some (s1, SqlDisplay.cleared)) := by
  intro σ db s0 input hne
  have hkey : (ddl_markers.any (fun m => strHasSub (pyLower (pyStrip input)) m) &&
      (!strHasSub (pyLower (pyStrip input)) "select" &&
       !strHasSub (pyLower (pyStrip input)) "pragma")) = false →
      run_sql db s0 input =
        some ((execAll db s0 (run_sql_statements (pyStrip input))).1,
              displaySpec (execAll db s0 (run_sql_statements (pyStrip input))).2) := by
    intro hb
    simp only [run_sql, if_neg hne, hb, Bool.false_eq_true, if_neg]
    rw [run_sql_foldl_spec]
    cases hl : lastQueryResult (execAll db s0 (run_sql_statements (pyStrip input))).2 with
    | none => simp [displaySpec, hl]
    | some r =>
      by_cases hc : r.cols = []
      · simp [displaySpec, hl, hc]
      · simp [displaySpec, hl, hc]
  refine ⟨?_, hkey, ?_⟩
  · intro hb
    simp [run_sql, if_neg hne, hb]
  · intro hb s1 hcontra
    rw [hkey hb] at hcontra
    simp only [Option.some.injEq, Prod.mk.injEq] at hcontra
    obtain ⟨-, hdisp⟩ := hcontra
    revert hdisp
    cases hl : lastQueryResult (execAll db s0 (run_sql_statements (pyStrip input))).2 with
    | none => simp [displaySpec, hl]
    | some r =>
      by_cases hc : r.cols = [] <;> simp [displaySpec, hl, hc]

/-- C9 witness: a pure DDL input (`DROP TABLE items`) takes the script
path and leaves the result grid cleared. -/
theorem run_sql_dispatch_amended_witness :
    run_sql pragmaSilentDb () "DROP TABLE items" = some ((), SqlDisplay.cleared) := by
  have h := (run_sql_dispatch_amended Unit pragmaSilentDb () "DROP TABLE items"
    (by decide)).1 (by decide)
  exact h

/-! ## C10 — row-deletion key choice -/

/-- A member of a list has a first index, and that index is in range. -/
lemma list_index_of_mem :
    ∀ (l : List String) (x : String), x ∈ l →
      ∃ i, list_index l x = some i ∧ i < l.length := by
  intro l
  induction l with
  | nil => intro x h; simp at h
  | cons a l ih =>
    intro x h
    by_cases hax : (a == x) = true
    · exact ⟨0, by simp [list_index, hax], by simp⟩
    · have hx : x ∈ l := by
        rcases List.mem_cons.mp h with h1 | h1
        · exact absurd (by simp [h1]) hax
        · exact h1
      obtain ⟨i, hi, hlt⟩ := ih x hx
      refine ⟨i + 1, by simp [list_index, hax, hi], by simpa using hlt⟩

/-- C10: the delete key is the column literally named `id` whenever the
browsed column list contains one (the declared primary keys are not even
consulted then); otherwise it is the first `PRAGMA table_info` column
whose `pk` flag is 1; when neither exists the operation only warns.
With a key column found, the deletion keeps exactly the records whose
key column differs from the selected row's key value. -/
theorem delete_selected_row_key_choice :
    ∀ (cols vals : List String) (pkinfo : List ColumnInfo)
      (rows : List (List (String × String))),
      vals.length = cols.length →
      (∀ c ∈ pkinfo, c.name ∈ cols) →
      ((cols.contains "id" = true →
        ∃ i v, list_index cols "id" = some i ∧ vals[i]? = some v ∧
          delete_selected_row cols vals pkinfo rows =
            DeleteOutcome.deleted "id" v
              (rows.filter (fun r => !(rowValue r "id" == v)))) ∧
      (cols.contains "id" = false →
        ∀ pc, pkinfo.find? (fun c => c.pk == 1) = some pc →
          ∃ i v, list_index cols pc.name = some i ∧ vals[i]? = some v ∧
            delete_selected_row cols vals pkinfo rows =
              DeleteOutcome.deleted pc.name v
                (rows.filter (fun r => !(rowValue r pc.name == v)))) ∧
      (cols.contains "id" = false →
        pkinfo.find? (fun c => c.pk == 1) = none →
        delete_selected_row cols vals pkinfo rows = DeleteOutcome.warnNoPk)) := by
  intro cols vals pkinfo rows hlen hsub
  refine ⟨?_, ?_, ?_⟩
  · intro hid
    have hmem : "id" ∈ cols := by
      simpa using hid
    obtain ⟨i, hi, hlt⟩ := list_index_of_mem cols "id" hmem
    have hvlt : i < vals.length := by omega
    refine ⟨i, vals[i], hi, List.getElem?_eq_getElem hvlt, ?_⟩
    simp [delete_selected_row, pick_pk_col, hmem, hi, List.getElem?_eq_getElem hvlt]
  · intro hid pc hfind
    have hmem : pc.name ∈ cols := hsub pc (List.mem_of_find?_eq_some hfind)
    obtain ⟨i, hi, hlt⟩ := list_index_of_mem cols pc.name hmem
    have hvlt : i < vals.length := by omega
    refine ⟨i, vals[i], hi, List.getElem?_eq_getElem hvlt, ?_⟩
    have hnid : ¬("id" ∈ cols) := by
      simpa using hid
    simp [delete_selected_row, pick_pk_col, hnid, hfind, hi,
      List.getElem?_eq_getElem hvlt]
  · intro hid hnone
    have hnid : ¬("id" ∈ cols) := by
      simpa using hid
    simp [delete_selected_row, pick_pk_col, hnid, hnone]

/-- C10 witness: with grid columns `["id", "name"]`, even though the
schema declares `name` as the primary key, the row with `id = "2"` is
deleted by the `id` column. -/
theorem delete_selected_row_key_choice_witness :
    delete_selected_row ["id", "name"] ["2", "x"]
      [{ name := "name", type := "TEXT", notnull := false, pk := 1, dflt := none }]
      [[("id", "1"), ("name", "a")], [("id", "2"), ("name", "b")]] =
      DeleteOutcome.deleted "id" "2" [[("id", "1"), ("name", "a")]] := by
  obtain ⟨i, v, hi, hv, hout⟩ :=
    (delete_selected_row_key_choice ["id", "name"] ["2", "x"]
      [{ name := "name", type := "TEXT", notnull := false, pk := 1, dflt := none }]
      [[("id", "1"), ("name", "a")], [("id", "2"), ("name", "b")]]
      (by decide) (by decide)).1 (by decide)
  have h0 : list_index ["id", "name"] "id" = some 0 := by decide
  rw [h0] at hi
  obtain rfl : i = 0 := (Option.some.inj hi).symm
  have h1 : (["2", "x"] : List String)[0]? = some "2" := by decide
  rw [h1] at hv
  obtain rfl : v = "2" := (Option.some.inj hv).symm
  exact hout.trans (by decide)

/-- C8 witness: concrete traces — a `with` block over an empty body has
no close event, the two-block variant of row deletion starts by opening
a connection, the diagram build over an existing database starts by
opening a connection, and a two-table schema refresh never closes one. -/
theorem db_connection_scoped_amended_witness :
    ConnEvent.closeConn ∉ withConn [] true ∧
    (delete_selected_row_trace false true true).head? = some ConnEvent.openConn ∧
    (build_er_diagram_trace true 2).head? = some ConnEvent.openConn ∧
    ConnEvent.closeConn ∉ refresh_schema_trace 2 true true := by
  obtain ⟨h1, _, _, _, _, _, _, _, h9, _, _, _, _, _, _, h16, _, h18, _⟩ :=
    db_connection_scoped_amended true true true false true false true 2 0 []
  exact ⟨h1 (by decide), h16 (by decide), h18 rfl, h9⟩
